import Mathlib

set_option maxRecDepth 8000

/-!
Verification of the metrics-aggregation and recommendation pipeline of
`src/model.py` (student performance analysis).

The pipeline is embedded shallowly:

* a pandas DataFrame of per-question records becomes a `List Record`;
* `calculate_student_metrics`, `calculate_average_performance`,
  `identify_strengths_weaknesses`, `generate_recommendations` (its two
  branches) , `get_section_specific_recommendations` and `evaluate_model`
  become Lean functions over lists, with float arithmetic modelled by `ℚ`;
* pandas `groupby` sorts its group keys, which is modelled by an insertion
  sort over the deduplicated keys; `Series.unique` keeps first occurrences;
* `DataFrame.sort_values(ascending=False)` reverses the rows, runs a stable
  ascending argsort and reverses the result, which is a *stable descending*
  sort (ties keep their original relative order); it is modelled by
  `List.insertionSort` with the "greater or equal diff" relation;
* `Series.map {...}` sends keys missing from the dict to NaN, and
  `groupby(...).agg(['sum','count'])` skips NaN values; a NaN cell is
  modelled as `Option.none`;
* Python f-string formatting with `:.1f` is modelled by `fmt1`.
-/

/-- A raw value of the `is_correct` column: a Python boolean or a string.
`calculate_student_metrics` only remaps the column when its dtype is
`object`, i.e. when at least one cell is a string. -/
inductive RawVal where
  | vb : Bool → RawVal
  | vs : String → RawVal
deriving DecidableEq

/-- One row of the input dataset: columns `student_id`, `section`
(field `sec`; `section` is a Lean keyword) and `is_correct`. -/
structure Record where
  student_id : Nat
  sec : String
  is_correct : RawVal
deriving DecidableEq

/-- Whether the `is_correct` column has pandas dtype `object`: true iff some
cell holds a string (an all-boolean column gets dtype `bool`). -/
def isObjectDtype (rs : List Record) : Bool :=
  rs.any fun r => match r.is_correct with
    | .vb _ => false
    | .vs _ => true

/-- The dict passed to `Series.map`: `{'true': True, 'false': False}`. Any
other key — including a genuine Python boolean sitting in an object-dtype
column — is absent from the dict and maps to NaN (`none`). -/
def mapTrueFalse : RawVal → Option Bool
  | .vs "true" => some true
  | .vs "false" => some false
  | _ => none

/-- `is_correct` after the conditional remapping of `calculate_student_metrics`:
when the column dtype is `object` every cell goes through `mapTrueFalse`,
otherwise the column is all booleans and is left unchanged. -/
def normalizeVal (object : Bool) (v : RawVal) : Option Bool :=
  if object then mapTrueFalse v
  else match v with
    | .vb b => some b
    | .vs _ => none

/-- The dataset as (student_id, section, normalized is_correct) triples. -/
def normalizeData (rs : List Record) : List (Nat × String × Option Bool) :=
  let object := isObjectDtype rs
  rs.map fun r => (r.student_id, r.sec, normalizeVal object r.is_correct)

/-- First-occurrence deduplication with an accumulator of already-seen
values; `uniqueFirst` below models pandas `Series.unique`. -/
def uniqueFirstAux [DecidableEq α] : List α → List α → List α
  | [], _ => []
  | x :: xs, seen =>
    if x ∈ seen then uniqueFirstAux xs seen
    else x :: uniqueFirstAux xs (x :: seen)

/-- pandas `Series.unique`: distinct values in order of first appearance. -/
def uniqueFirst [DecidableEq α] (l : List α) : List α :=
  uniqueFirstAux l []

/-- Ascending order on `groupby(['student_id', 'section'])` keys. -/
def keyLE (a b : Nat × String) : Prop :=
  a.1 < b.1 ∨ (a.1 = b.1 ∧ a.2 ≤ b.2)

instance : DecidableRel keyLE := fun _ _ =>
  inferInstanceAs (Decidable (_ ∨ _))

/-- Ascending order on `groupby('section')` / `groupby('student_id')` keys. -/
def ascLE {α : Type} [LinearOrder α] (a b : α) : Prop := a ≤ b

instance {α : Type} [LinearOrder α] : DecidableRel (ascLE (α := α)) := fun a b =>
  inferInstanceAs (Decidable (a ≤ b))

/-- One row of the `student_section_performance` table: the group key, the
aggregated columns `sum` (count of `True` cells) and `count` (count of
non-NaN cells) and the derived `score_percentage`. -/
structure SectionRow where
  student_id : Nat
  sec : String
  correct : Nat
  total : Nat
  score_percentage : ℚ
deriving DecidableEq

/-- One row of the `student_overall` table. -/
structure OverallRow where
  student_id : Nat
  correct : Nat
  total : Nat
  overall_score : ℚ
deriving DecidableEq

/-- `calculate_student_metrics` (src/model.py lines 6-25): normalize
`is_correct` when the column is string-typed, group by (student_id, section)
with `sum`/`count` aggregation and `score_percentage = sum / count * 100`,
group by student_id alike for `student_overall`, and return the placeholder
`learning_rates_df` with `learning_rate = 0` per student. Group keys are
sorted, as pandas `groupby` sorts them; `sum` and `count` skip NaN cells. -/
def calculate_student_metrics (rs : List Record) :
    List SectionRow × List OverallRow × List (Nat × ℚ) :=
  let d := normalizeData rs
  let ssp := (List.insertionSort keyLE (uniqueFirst (d.map fun v => (v.1, v.2.1)))).map fun k =>
    let grp := d.filter fun v => v.1 == k.1 && v.2.1 == k.2
    let cor := (grp.filter fun v => v.2.2 == some true).length
    let cnt := (grp.filter fun v => v.2.2.isSome).length
    ⟨k.1, k.2, cor, cnt, ((cor : ℚ) / (cnt : ℚ)) * 100⟩
  let so := (List.insertionSort ascLE (uniqueFirst (d.map fun v => v.1))).map fun sid =>
    let grp := d.filter fun v => v.1 == sid
    let cor := (grp.filter fun v => v.2.2 == some true).length
    let cnt := (grp.filter fun v => v.2.2.isSome).length
    ⟨sid, cor, cnt, ((cor : ℚ) / (cnt : ℚ)) * 100⟩
  let lr := so.map fun o => (o.student_id, (0 : ℚ))
  (ssp, so, lr)

/-- One row of the `avg_section_performance` table. -/
structure AvgRow where
  sec : String
  avg_score_percentage : ℚ
deriving DecidableEq

/-- pandas `Series.mean`: sum divided by length (`0 / 0 = 0` stands in for
the NaN that pandas produces on an empty series). -/
def listMean (l : List ℚ) : ℚ := l.sum / (l.length : ℚ)

/-- `calculate_average_performance` (src/model.py lines 27-34): per section,
the mean of the per-student `score_percentage` column, plus the scalar mean
of `overall_score`. -/
def calculate_average_performance (ssp : List SectionRow) (so : List OverallRow) :
    List AvgRow × ℚ :=
  let avgRows := (List.insertionSort ascLE (uniqueFirst (ssp.map fun r => r.sec))).map
    fun s => AvgRow.mk s (listMean ((ssp.filter fun r => r.sec == s).map fun r => r.score_percentage))
  (avgRows, listMean (so.map fun o => o.overall_score))

/-- A row of the per-student `comparison` table built by
`identify_strengths_weaknesses`. -/
structure CompRow where
  sec : String
  score : ℚ
  avg_score : ℚ
  diff : ℚ
deriving DecidableEq

/-- The lookup `avg_section_performance[avg_section_performance['section'] ==
s]['avg_score_percentage'].values[0]`. On a missing section the source's
`.values[0]` is a runtime IndexError; the model returns 0 there, a branch
never reached when the average table is derived from the same section
table (every claim below is used under that consistency). -/
def getAvg (avg : List AvgRow) (s : String) : ℚ :=
  match avg.find? fun r => r.sec == s with
  | some r => r.avg_score_percentage
  | none => 0

/-- The descending-`diff` order used by
`comparison_df.sort_values('diff', ascending=False)`. -/
def diffDesc (a b : CompRow) : Prop := b.diff ≤ a.diff

instance : DecidableRel diffDesc := fun a b =>
  inferInstanceAs (Decidable (b.diff ≤ a.diff))

instance : IsTotal CompRow diffDesc := ⟨fun a b => le_total b.diff a.diff⟩

instance : IsTrans CompRow diffDesc := ⟨fun _ _ _ h1 h2 => le_trans h2 h1⟩

/-- pandas `sort_values('diff', ascending=False)`: reverse, stable ascending
argsort, reverse again — a stable descending sort (ties keep their original
relative order). -/
def sortDescByDiff (l : List CompRow) : List CompRow :=
  List.insertionSort diffDesc l

/-- The value of `strengths_weaknesses[student_id]`. -/
structure SWEntry where
  strengths : List String
  weaknesses : List String
  comparison : List CompRow
deriving DecidableEq

/-- The per-student comparison loop of `identify_strengths_weaknesses`
(src/model.py lines 44-55): one row per section row of the student, in row
order, with `diff = score - avg_score`. -/
def comparisonFor (ssp : List SectionRow) (avg : List AvgRow) (sid : Nat) : List CompRow :=
  (ssp.filter fun r => r.student_id == sid).map fun row =>
    let a := getAvg avg row.sec
    ⟨row.sec, row.score_percentage, a, row.score_percentage - a⟩

/-- `identify_strengths_weaknesses` (src/model.py lines 36-69): for each
student (first-appearance order of `student_id`), sort the comparison rows
by `diff` descending, take `head(2)` as strengths and `tail(2)` as
weaknesses (the last two rows, kept in sorted order). -/
def identify_strengths_weaknesses (ssp : List SectionRow) (avg : List AvgRow) :
    List (Nat × SWEntry) :=
  (uniqueFirst (ssp.map fun r => r.student_id)).map fun sid =>
    let comparison := comparisonFor ssp avg sid
    let sorted := sortDescByDiff comparison
    (sid, ⟨(sorted.take 2).map fun c => c.sec,
           (sorted.drop (sorted.length - 2)).map fun c => c.sec,
           comparison⟩)

/-- Decimal digit character of `n % 10`. -/
def digitChar (n : Nat) : Char :=
  match n % 10 with
  | 0 => '0' | 1 => '1' | 2 => '2' | 3 => '3' | 4 => '4'
  | 5 => '5' | 6 => '6' | 7 => '7' | 8 => '8' | _ => '9'

/-- Decimal digits of `n`, most significant first, with fuel for structural
recursion (`fuel > n / 10` suffices, and `natChars` passes `n + 1`). -/
def natCharsAux : Nat → Nat → List Char
  | 0, _ => []
  | fuel + 1, n =>
    if n < 10 then [digitChar n]
    else natCharsAux fuel (n / 10) ++ [digitChar n]

/-- Decimal digits of a natural number, most significant first. -/
def natChars (n : Nat) : List Char := natCharsAux (n + 1) n

/-- Decimal string of a natural number. -/
def natStr (n : Nat) : String := String.mk (natChars n)

/-- Floor of a rational (`Int.fdiv` is floor division; `q.den > 0`). -/
def ratFloor (q : ℚ) : Int := Int.fdiv q.num (q.den : Int)

/-- Round to the nearest integer, ties to even — the rounding of Python's
float formatting. -/
def roundHalfEven (x : ℚ) : Int :=
  let f := ratFloor x
  if x - (f : ℚ) < 1 / 2 then f
  else if 1 / 2 < x - (f : ℚ) then f + 1
  else if f % 2 = 0 then f else f + 1

/-- Python's `f"{x:.1f}"`: the value formatted with one decimal digit. -/
def fmt1 (q : ℚ) : String :=
  let n : Int := roundHalfEven (q * 10)
  let m : Nat := n.natAbs
  (if n < 0 then "-" else "") ++ natStr (m / 10) ++ "." ++ natStr (m % 10)

/-- The `section_names` dict of `generate_recommendations` (src/model.py
lines 77-82). A key outside A-D would raise KeyError in the source; the
model returns "" there (the branch is unreachable for A-D weaknesses). -/
def section_names (w : String) : String :=
  if w == "A" then "Math"
  else if w == "B" then "Verbal"
  else if w == "C" then "Non-verbal"
  else if w == "D" then "Comprehension"
  else ""

/-- `performance_level` (src/model.py line 163): "excellent" for score ≥ 80,
"good" for ≥ 60, "fair" for ≥ 40, else "poor". -/
def performance_level (score : ℚ) : String :=
  if score ≥ 80 then "excellent"
  else if score ≥ 60 then "good"
  else if score ≥ 40 then "fair"
  else "poor"

/-- `relation_to_avg` (src/model.py line 164): "above average" for diff > 5,
"below average" for diff < -5, else "at the class average". -/
def relation_to_avg (diff : ℚ) : String :=
  if diff > 5 then "above average"
  else if diff < -5 then "below average"
  else "at the class average"

/-- Weakness text, Math, score < 40 (src/model.py line 121). -/
def wkA1 (subject w : String) (score avg_score diff : ℚ) : String :=
  subject ++ " (Section " ++ w ++ "): You need significant improvement in mathematical concepts. Your score (" ++ fmt1 score ++ "%) is " ++ fmt1 |diff| ++ "% below the class average (" ++ fmt1 avg_score ++ "%). Focus on basic arithmetic, algebra, and geometry fundamentals."

/-- Weakness text, Math, 40 ≤ score < 60 (src/model.py line 123). -/
def wkA2 (subject w : String) (score avg_score diff : ℚ) : String :=
  subject ++ " (Section " ++ w ++ "): Work on improving your mathematical problem-solving skills. Your score (" ++ fmt1 score ++ "%) is " ++ fmt1 |diff| ++ "% below the class average (" ++ fmt1 avg_score ++ "%). Practice with timed exercises focusing on algebra and number theory."

/-- Weakness text, Math, score ≥ 60 (src/model.py line 125). -/
def wkA3 (subject w : String) (avg_score diff : ℚ) : String :=
  subject ++ " (Section " ++ w ++ "): You're doing well in math but still " ++ fmt1 |diff| ++ "% below the class average (" ++ fmt1 avg_score ++ "%). Focus on advanced topics and complex problem-solving techniques."

/-- Weakness text, Verbal, score < 40 (src/model.py line 129). -/
def wkB1 (subject w : String) (score avg_score diff : ℚ) : String :=
  subject ++ " (Section " ++ w ++ "): Significant improvement needed in verbal reasoning. Your score (" ++ fmt1 score ++ "%) is " ++ fmt1 |diff| ++ "% below the class average (" ++ fmt1 avg_score ++ "%). Focus on vocabulary building, synonyms/antonyms, and basic grammar rules."

/-- Weakness text, Verbal, 40 ≤ score < 60 (src/model.py line 131). -/
def wkB2 (subject w : String) (score avg_score diff : ℚ) : String :=
  subject ++ " (Section " ++ w ++ "): Work on improving your verbal comprehension. Your score (" ++ fmt1 score ++ "%) is " ++ fmt1 |diff| ++ "% below the class average (" ++ fmt1 avg_score ++ "%). Practice with sentence completion exercises, reading short passages, and word relationships."

/-- Weakness text, Verbal, score ≥ 60 (src/model.py line 133). -/
def wkB3 (subject w : String) (avg_score diff : ℚ) : String :=
  subject ++ " (Section " ++ w ++ "): You're doing reasonably well in verbal skills but " ++ fmt1 |diff| ++ "% below the class average (" ++ fmt1 avg_score ++ "%). Focus on complex sentence structures, advanced vocabulary, and nuanced language comprehension."

/-- Weakness text, Non-verbal, score < 40 (src/model.py line 137). -/
def wkC1 (subject w : String) (score avg_score diff : ℚ) : String :=
  subject ++ " (Section " ++ w ++ "): Significant improvement needed in pattern recognition and spatial reasoning. Your score (" ++ fmt1 score ++ "%) is " ++ fmt1 |diff| ++ "% below the class average (" ++ fmt1 avg_score ++ "%). Practice with basic pattern completion exercises and spatial visualization tasks."

/-- Weakness text, Non-verbal, 40 ≤ score < 60 (src/model.py line 139). -/
def wkC2 (subject w : String) (score avg_score diff : ℚ) : String :=
  subject ++ " (Section " ++ w ++ "): Work on improving your non-verbal reasoning. Your score (" ++ fmt1 score ++ "%) is " ++ fmt1 |diff| ++ "% below the class average (" ++ fmt1 avg_score ++ "%). Focus on identifying relationships in visual patterns, sequences, and spatial arrangements."

/-- Weakness text, Non-verbal, score ≥ 60 (src/model.py line 141). -/
def wkC3 (subject w : String) (avg_score diff : ℚ) : String :=
  subject ++ " (Section " ++ w ++ "): You're doing reasonably well in non-verbal reasoning but " ++ fmt1 |diff| ++ "% below the class average (" ++ fmt1 avg_score ++ "%). Practice with complex pattern recognition, 3D visualization, and abstract reasoning problems."

/-- Weakness text, Comprehension, score < 40 (src/model.py line 145). -/
def wkD1 (subject w : String) (score avg_score diff : ℚ) : String :=
  subject ++ " (Section " ++ w ++ "): Significant improvement needed in reading comprehension. Your score (" ++ fmt1 score ++ "%) is " ++ fmt1 |diff| ++ "% below the class average (" ++ fmt1 avg_score ++ "%). Focus on understanding main ideas, basic inference skills, and identifying key information in passages."

/-- Weakness text, Comprehension, 40 ≤ score < 60 (src/model.py line 147). -/
def wkD2 (subject w : String) (score avg_score diff : ℚ) : String :=
  subject ++ " (Section " ++ w ++ "): Work on improving your reading comprehension. Your score (" ++ fmt1 score ++ "%) is " ++ fmt1 |diff| ++ "% below the class average (" ++ fmt1 avg_score ++ "%). Practice with medium-length passages and questions about explicit and implicit information."

/-- Weakness text, Comprehension, score ≥ 60 (src/model.py line 149). -/
def wkD3 (subject w : String) (avg_score diff : ℚ) : String :=
  subject ++ " (Section " ++ w ++ "): You're doing reasonably well in comprehension but " ++ fmt1 |diff| ++ "% below the class average (" ++ fmt1 avg_score ++ "%). Focus on critical analysis of complex texts, drawing nuanced conclusions, and understanding author's intent and tone."

/-- The text appended for one weakness section in the weaknesses-only branch
of `generate_recommendations` (src/model.py lines 117-149): one string,
chosen by the section code and the score thresholds 40 and 60. A weakness
outside A-D appends nothing (in the source, `section_names[weakness]` would
raise KeyError first; that path is unreachable for A-D data). -/
def weaknessRecFor (w : String) (score avg_score diff : ℚ) : List String :=
  let subject := section_names w
  if w == "A" then
    if score < 40 then [wkA1 subject w score avg_score diff]
    else if score < 60 then [wkA2 subject w score avg_score diff]
    else [wkA3 subject w avg_score diff]
  else if w == "B" then
    if score < 40 then [wkB1 subject w score avg_score diff]
    else if score < 60 then [wkB2 subject w score avg_score diff]
    else [wkB3 subject w avg_score diff]
  else if w == "C" then
    if score < 40 then [wkC1 subject w score avg_score diff]
    else if score < 60 then [wkC2 subject w score avg_score diff]
    else [wkC3 subject w avg_score diff]
  else if w == "D" then
    if score < 40 then [wkD1 subject w score avg_score diff]
    else if score < 60 then [wkD2 subject w score avg_score diff]
    else [wkD3 subject w avg_score diff]
  else []

/-- The tier index of the weaknesses-only table: 0 for score < 40, 1 for
40 ≤ score < 60, 2 for score ≥ 60 — three tiers keyed only on the
thresholds 40 and 60 (there is no fourth, "excellent" tier). -/
def weaknessTier (score : ℚ) : Nat :=
  if score < 40 then 0 else if score < 60 then 1 else 2

/-- The weaknesses-only rule table, keyed by section code and tier index. -/
def weaknessTable (w : String) (t : Nat) (score avg_score diff : ℚ) : List String :=
  let subject := section_names w
  if w == "A" then
    if t = 0 then [wkA1 subject w score avg_score diff]
    else if t = 1 then [wkA2 subject w score avg_score diff]
    else [wkA3 subject w avg_score diff]
  else if w == "B" then
    if t = 0 then [wkB1 subject w score avg_score diff]
    else if t = 1 then [wkB2 subject w score avg_score diff]
    else [wkB3 subject w avg_score diff]
  else if w == "C" then
    if t = 0 then [wkC1 subject w score avg_score diff]
    else if t = 1 then [wkC2 subject w score avg_score diff]
    else [wkC3 subject w avg_score diff]
  else if w == "D" then
    if t = 0 then [wkD1 subject w score avg_score diff]
    else if t = 1 then [wkD2 subject w score avg_score diff]
    else [wkD3 subject w avg_score diff]
  else []

/-- `get_section_specific_recommendations` (src/model.py lines 155-226):
the all-sections rule table, keyed by section code and `performance_level`
(four tiers, including "excellent"), with `relation_to_avg` interpolated
into the text. Returns 2-3 strings per branch and [] for a section outside
A-D. -/
def get_section_specific_recommendations (s : String) (score avg_score diff : ℚ) : List String :=
  let pl := performance_level score
  let ra := relation_to_avg diff
  if s == "A" then
    if pl == "excellent" then
      ["Outstanding performance in Math! Your score (" ++ fmt1 score ++ "%) is " ++ fmt1 |diff| ++ "% " ++ ra ++ " (" ++ fmt1 avg_score ++ "%). Continue to challenge yourself with advanced mathematical concepts and complex problem-solving.",
       "To maintain your excellence: Practice with competitive math problems, explore calculus or statistics if not already familiar, and consider mentoring peers who struggle with math."]
    else if pl == "good" then
      ["Good performance in Math. Your score (" ++ fmt1 score ++ "%) is " ++ fmt1 |diff| ++ "% " ++ ra ++ " (" ++ fmt1 avg_score ++ "%). You have a solid foundation but can still improve in specific areas.",
       "To improve further: Focus on algebraic manipulations, quadratic equations, and geometry theorems. Try timed practice to improve speed and accuracy."]
    else if pl == "fair" then
      ["Fair performance in Math. Your score (" ++ fmt1 score ++ "%) is " ++ fmt1 |diff| ++ "% " ++ ra ++ " (" ++ fmt1 avg_score ++ "%). You need to strengthen your mathematical foundation.",
       "To build your skills: Review basic algebra, fractions, percentages, and geometric principles. Practice daily with gradual progression to more complex problems."]
    else
      ["You need significant improvement in Math. Your score (" ++ fmt1 score ++ "%) is " ++ fmt1 |diff| ++ "% " ++ ra ++ " (" ++ fmt1 avg_score ++ "%). Focus on establishing basic mathematical concepts.",
       "Essential steps for improvement: Start with arithmetic operations, fractions, and basic algebra. Use visual aids and practical examples to grasp concepts. Consider extra tutoring support.",
       "Recommended resources: Khan Academy's basic math courses, 'Math Made Easy' workbooks, or apps like Photomath to help understand step-by-step solutions."]
  else if s == "B" then
    if pl == "excellent" then
      ["Outstanding verbal reasoning skills! Your score (" ++ fmt1 score ++ "%) is " ++ fmt1 |diff| ++ "% " ++ ra ++ " (" ++ fmt1 avg_score ++ "%). You demonstrate exceptional language comprehension and vocabulary.",
       "To maintain your excellence: Read advanced literature and scholarly articles, practice writing persuasive essays, and expand your vocabulary with specialized or technical terms."]
    else if pl == "good" then
      ["Good verbal reasoning abilities. Your score (" ++ fmt1 score ++ "%) is " ++ fmt1 |diff| ++ "% " ++ ra ++ " (" ++ fmt1 avg_score ++ "%). You have solid language skills but can enhance specific areas.",
       "To improve further: Focus on analogies, sentence completions, and critical reading. Practice identifying author's tone and purpose in diverse texts."]
    else if pl == "fair" then
      ["Fair verbal performance. Your score (" ++ fmt1 score ++ "%) is " ++ fmt1 |diff| ++ "% " ++ ra ++ " (" ++ fmt1 avg_score ++ "%). You need to strengthen your vocabulary and reading comprehension.",
       "To build your skills: Read diverse materials daily, maintain a vocabulary journal, and practice synonym/antonym exercises. Focus on understanding context clues in passages."]
    else
      ["You need significant improvement in verbal reasoning. Your score (" ++ fmt1 score ++ "%) is " ++ fmt1 |diff| ++ "% " ++ ra ++ " (" ++ fmt1 avg_score ++ "%). Focus on building fundamental language skills.",
       "Essential steps for improvement: Start with basic vocabulary building exercises, grammar rules, and simple reading comprehension activities. Use flashcards for new words.",
       "Recommended resources: Vocabulary apps like Memrise or Quizlet, graded readers appropriate for your level, and websites like Grammar.com for language basics."]
  else if s == "C" then
    if pl == "excellent" then
      ["Exceptional non-verbal reasoning abilities! Your score (" ++ fmt1 score ++ "%) is " ++ fmt1 |diff| ++ "% " ++ ra ++ " (" ++ fmt1 avg_score ++ "%). You excel at pattern recognition and spatial reasoning.",
       "To maintain your excellence: Challenge yourself with advanced puzzle types, 3D visualization exercises, and abstract reasoning problems found in high-level aptitude tests."]
    else if pl == "good" then
      ["Good non-verbal reasoning skills. Your score (" ++ fmt1 score ++ "%) is " ++ fmt1 |diff| ++ "% " ++ ra ++ " (" ++ fmt1 avg_score ++ "%). You recognize patterns well but can improve in complex scenarios.",
       "To improve further: Practice with various pattern recognition exercises, spatial rotation tasks, and logical sequence problems with increasing difficulty."]
    else if pl == "fair" then
      ["Fair non-verbal performance. Your score (" ++ fmt1 score ++ "%) is " ++ fmt1 |diff| ++ "% " ++ ra ++ " (" ++ fmt1 avg_score ++ "%). You need to develop better pattern recognition abilities.",
       "To build your skills: Work regularly with visual puzzles, pattern completion exercises, and spatial reasoning tasks. Start with simpler patterns and progressively increase difficulty."]
    else
      ["You need significant improvement in non-verbal reasoning. Your score (" ++ fmt1 score ++ "%) is " ++ fmt1 |diff| ++ "% " ++ ra ++ " (" ++ fmt1 avg_score ++ "%). Focus on basic pattern recognition skills.",
       "Essential steps for improvement: Begin with simple pattern recognition exercises, shape matching, and basic sequence completion. Train your brain to identify similarities and differences in visual information.",
       "Recommended resources: Apps like Lumosity or Peak for pattern games, puzzle books with increasing difficulty levels, and tangram puzzles for spatial reasoning practice."]
  else if s == "D" then
    if pl == "excellent" then
      ["Outstanding reading comprehension skills! Your score (" ++ fmt1 score ++ "%) is " ++ fmt1 |diff| ++ "% " ++ ra ++ " (" ++ fmt1 avg_score ++ "%). You excel at understanding and analyzing complex texts.",
       "To maintain your excellence: Read scholarly articles and classic literature, practice critical analysis of complex arguments, and work on synthesizing information from multiple sources."]
    else if pl == "good" then
      ["Good reading comprehension abilities. Your score (" ++ fmt1 score ++ "%) is " ++ fmt1 |diff| ++ "% " ++ ra ++ " (" ++ fmt1 avg_score ++ "%). You understand most texts well but can improve with complex material.",
       "To improve further: Practice with more challenging reading materials, focus on inference questions, and work on identifying unstated assumptions and author's perspective."]
    else if pl == "fair" then
      ["Fair reading comprehension. Your score (" ++ fmt1 score ++ "%) is " ++ fmt1 |diff| ++ "% " ++ ra ++ " (" ++ fmt1 avg_score ++ "%). You understand basic texts but struggle with deeper analysis.",
       "To build your skills: Read diverse materials regularly, practice summarizing what you've read, and work on identifying main ideas versus supporting details. Try answering 'why' and 'how' questions about texts."]
    else
      ["You need significant improvement in reading comprehension. Your score (" ++ fmt1 score ++ "%) is " ++ fmt1 |diff| ++ "% " ++ ra ++ " (" ++ fmt1 avg_score ++ "%). Focus on basic reading skills.",
       "Essential steps for improvement: Start with shorter passages at an appropriate reading level. Practice identifying the main idea, key details, and simple inferences. Read actively by asking yourself questions about the text.",
       "Recommended resources: Graded reading materials with comprehension questions, websites like ReadWorks.org or Newsela that adjust text complexity, and guided reading workbooks."]
  else []

/-- `student_data[student_data['section'] == w]['score_percentage'].values[0]`.
On an empty selection the source raises IndexError; the model returns 0
there, a branch unreachable when `w` comes from the student's own data. -/
def firstScore (studentData : List SectionRow) (w : String) : ℚ :=
  match studentData.filter fun r => r.sec == w with
  | [] => 0
  | r :: _ => r.score_percentage

/-- The dict lookup `strengths_weaknesses[student_id]`. A missing student
raises KeyError in the source; the model returns the empty entry there, a
branch unreachable when the map was built from the same section table. -/
def swFor (sw : List (Nat × SWEntry)) (sid : Nat) : SWEntry :=
  match sw.find? fun p => p.1 == sid with
  | some p => p.2
  | none => ⟨[], [], []⟩

/-- The `all_sections=False` branch of `generate_recommendations`
(src/model.py lines 84-86 and 108-151): per student, one flat list holding
one text per weakness section, in weakness order. -/
def generate_recommendations_weak (sw : List (Nat × SWEntry)) (ssp : List SectionRow)
    (avg : List AvgRow) : List (Nat × List String) :=
  (uniqueFirst (ssp.map fun r => r.student_id)).map fun sid =>
    let studentData := ssp.filter fun r => r.student_id == sid
    (sid, (swFor sw sid).weaknesses.flatMap fun w =>
      let score := firstScore studentData w
      let a := getAvg avg w
      weaknessRecFor w score a (score - a))

/-- The body of the per-section loop of the `all_sections=True` branch of
`generate_recommendations` (src/model.py lines 92-105): an empty block when
the student has no data for the section, otherwise the
`get_section_specific_recommendations` block for the student's score. -/
def sectionBlock (studentData : List SectionRow) (avg : List AvgRow) (s : String) :
    String × List String :=
  match studentData.filter fun r => r.sec == s with
  | [] => (s, [])
  | row :: _ =>
    let score := row.score_percentage
    let a := getAvg avg s
    (s, get_section_specific_recommendations s score a (score - a))

/-- The `all_sections=True` branch of `generate_recommendations`
(src/model.py lines 84-107): per student, a mapping over the fixed section
codes A-D built by `sectionBlock`. -/
def generate_recommendations_all (ssp : List SectionRow) (avg : List AvgRow) :
    List (Nat × List (String × List String)) :=
  (uniqueFirst (ssp.map fun r => r.student_id)).map fun sid =>
    let studentData := ssp.filter fun r => r.student_id == sid
    (sid, ["A", "B", "C", "D"].map (sectionBlock studentData avg))

/-- One row of the prediction table returned by `evaluate_model`. -/
structure PredRow where
  student_id : Nat
  predicted_performance : String
  actual_performance : String
  correct_prediction : Bool
deriving DecidableEq

/-- `evaluate_model` (src/model.py lines 228-238): fixed accuracy 95.0 and
precision 93.0, and one constant row per distinct `student_id` of the raw
data (the `learning_rates_df` argument is unused, as in the source). -/
def evaluate_model (rs : List Record) (_learning_rates : List (Nat × ℚ)) :
    ℚ × ℚ × List PredRow :=
  (95, 93, (uniqueFirst (rs.map fun r => r.student_id)).map fun sid =>
    ⟨sid, "Above Average", "Above Average", true⟩)

/-- Example dataset: student 1 answers 8 of 10 section-A questions
correctly, student 2 answers 3 of 5. -/
def exRecords : List Record :=
  List.replicate 8 ⟨1, "A", .vs "true"⟩ ++ List.replicate 2 ⟨1, "A", .vs "false"⟩ ++
  List.replicate 3 ⟨2, "A", .vs "true"⟩ ++ List.replicate 2 ⟨2, "A", .vs "false"⟩

/-- Section table of `exRecords`. -/
def exSSP : List SectionRow := (calculate_student_metrics exRecords).1

/-- Overall table of `exRecords`. -/
def exSO : List OverallRow := (calculate_student_metrics exRecords).2.1

/-- Mixed-dtype dataset: a genuine Python boolean in the same `is_correct`
column as a string, so the column has dtype `object` and the boolean cell
is remapped to NaN. -/
def mixedRecords : List Record := [⟨1, "A", .vb true⟩, ⟨2, "B", .vs "true"⟩]

/-- Dataset with an `is_correct` value outside {true, false, "true", "false"}. -/
def badRecords : List Record := [⟨1, "A", .vs "maybe"⟩, ⟨1, "A", .vs "true"⟩]

/-- One student holding all four sections, every answer correct: every
section score equals the cohort average, so every `diff` is 0. -/
def oneStudentRecords : List Record :=
  [⟨1, "A", .vs "true"⟩, ⟨1, "B", .vs "true"⟩, ⟨1, "C", .vs "true"⟩, ⟨1, "D", .vs "true"⟩]

/-- Section table of `oneStudentRecords`. -/
def oneSSP : List SectionRow := (calculate_student_metrics oneStudentRecords).1

/-- Average table of `oneStudentRecords`. -/
def oneAvg : List AvgRow :=
  (calculate_average_performance oneSSP (calculate_student_metrics oneStudentRecords).2.1).1

/-- Strengths/weaknesses map of `oneStudentRecords`. -/
def oneSW : List (Nat × SWEntry) := identify_strengths_weaknesses oneSSP oneAvg

/-- Weakness-mode recommendation list of student 1 of `oneStudentRecords`. -/
def oneRecs : List String :=
  ((generate_recommendations_weak oneSW oneSSP oneAvg).map fun p => p.2).headD []

/-- Two students over all four sections with four distinct diffs for each:
student 1 scores 100, 50, 25, 0 in A-D; student 2 scores 0 everywhere. -/
def classRecords : List Record :=
  [⟨1, "A", .vs "true"⟩,
   ⟨1, "B", .vs "true"⟩, ⟨1, "B", .vs "false"⟩,
   ⟨1, "C", .vs "true"⟩, ⟨1, "C", .vs "false"⟩, ⟨1, "C", .vs "false"⟩, ⟨1, "C", .vs "false"⟩,
   ⟨1, "D", .vs "false"⟩,
   ⟨2, "A", .vs "false"⟩, ⟨2, "B", .vs "false"⟩, ⟨2, "C", .vs "false"⟩, ⟨2, "D", .vs "false"⟩]

/-- Section table of `classRecords`. -/
def classSSP : List SectionRow := (calculate_student_metrics classRecords).1

/-- Average table of `classRecords`. -/
def classAvg : List AvgRow :=
  (calculate_average_performance classSSP (calculate_student_metrics classRecords).2.1).1

/-- Strengths/weaknesses map of `classRecords`. -/
def classSW : List (Nat × SWEntry) := identify_strengths_weaknesses classSSP classAvg

/-- The strengths/weaknesses entry of student 1 of `classRecords`. -/
def classE : SWEntry := (classSW.map fun p => p.2).headD ⟨[], [], []⟩

/-- A dataset whose single student holds sections A and B only. -/
def twoSecRecords : List Record := [⟨1, "A", .vs "true"⟩, ⟨1, "B", .vs "false"⟩]

/-- Section table of `twoSecRecords`. -/
def twoSecSSP : List SectionRow := (calculate_student_metrics twoSecRecords).1

/-- Average table of `twoSecRecords`. -/
def twoSecAvg : List AvgRow :=
  (calculate_average_performance twoSecSSP (calculate_student_metrics twoSecRecords).2.1).1

/-- Students 1 and 2 over sections A-C: student 1 all correct, student 2
all wrong, so every section of student 1 sits 50 points above the cohort
average — including its two "weakness" sections. -/
def aboveRecords : List Record :=
  [⟨1, "A", .vs "true"⟩, ⟨1, "B", .vs "true"⟩, ⟨1, "C", .vs "true"⟩,
   ⟨2, "A", .vs "false"⟩, ⟨2, "B", .vs "false"⟩, ⟨2, "C", .vs "false"⟩]

/-- Section table of `aboveRecords`. -/
def aboveSSP : List SectionRow := (calculate_student_metrics aboveRecords).1

/-- Average table of `aboveRecords`. -/
def aboveAvg : List AvgRow :=
  (calculate_average_performance aboveSSP (calculate_student_metrics aboveRecords).2.1).1

/-- Strengths/weaknesses map of `aboveRecords`. -/
def aboveSW : List (Nat × SWEntry) := identify_strengths_weaknesses aboveSSP aboveAvg

/-- Weakness-mode recommendation list of student 1 of `aboveRecords`. -/
def aboveRecs : List String :=
  ((generate_recommendations_weak aboveSW aboveSSP aboveAvg).map fun p => p.2).headD []

/-- All-sections block list of student 1 of `twoSecRecords`. -/
def twoSecBlocks : List (String × List String) :=
  ((generate_recommendations_all twoSecSSP twoSecAvg).map fun p => p.2).headD []

/-- The first weakness-mode string emitted for student 1 of `aboveRecords`. -/
def aboveS : String := aboveRecs.headD ""

/-- The characters `fmt1` can emit: digits, the decimal dot, the minus sign. -/
def numChar (c : Char) : Bool := c.isDigit || c == '.' || c == '-'

theorem mem_uniqueFirstAux [DecidableEq α] {a : α} (l : List α) (seen : List α) :
    a ∈ uniqueFirstAux l seen ↔ a ∈ l ∧ a ∉ seen := by
  induction l generalizing seen with
  | nil => simp [uniqueFirstAux]
  | cons x xs ih =>
    by_cases hx : x ∈ seen
    · rw [uniqueFirstAux, if_pos hx, ih]
      constructor
      · rintro ⟨h1, h2⟩
        exact ⟨List.mem_cons_of_mem _ h1, h2⟩
      · rintro ⟨h1, h2⟩
        rcases List.mem_cons.1 h1 with rfl | h1
        · exact absurd hx h2
        · exact ⟨h1, h2⟩
    · rw [uniqueFirstAux, if_neg hx]
      constructor
      · intro h
        rcases List.mem_cons.1 h with rfl | h
        · exact ⟨List.mem_cons_self _ _, hx⟩
        · obtain ⟨h1, h2⟩ := (ih _).1 h
          refine ⟨List.mem_cons_of_mem _ h1, fun hs => h2 (List.mem_cons_of_mem _ hs)⟩
      · rintro ⟨h1, h2⟩
        by_cases hax : a = x
        · subst hax
          exact List.mem_cons_self _ _
        · rcases List.mem_cons.1 h1 with rfl | h1
          · exact absurd rfl hax
          · exact List.mem_cons_of_mem _
              ((ih _).2 ⟨h1, fun hs => ((List.mem_cons.1 hs).elim hax h2).elim⟩)

theorem mem_uniqueFirst [DecidableEq α] {a : α} (l : List α) :
    a ∈ uniqueFirst l ↔ a ∈ l := by
  rw [uniqueFirst, mem_uniqueFirstAux]
  simp

theorem nodup_uniqueFirstAux [DecidableEq α] (l : List α) (seen : List α) :
    (uniqueFirstAux l seen).Nodup := by
  induction l generalizing seen with
  | nil => simp [uniqueFirstAux]
  | cons x xs ih =>
    by_cases hx : x ∈ seen
    · rw [uniqueFirstAux, if_pos hx]
      exact ih seen
    · rw [uniqueFirstAux, if_neg hx]
      refine List.nodup_cons.2 ⟨fun hmem => ?_, ih _⟩
      obtain ⟨-, h2⟩ := (mem_uniqueFirstAux _ _).1 hmem
      exact h2 (List.mem_cons_self _ _)

theorem nodup_uniqueFirst [DecidableEq α] (l : List α) : (uniqueFirst l).Nodup :=
  nodup_uniqueFirstAux l []

theorem uniqueFirst_eq_nil_iff [DecidableEq α] (l : List α) :
    uniqueFirst l = [] ↔ l = [] := by
  cases l with
  | nil => simp [uniqueFirst, uniqueFirstAux]
  | cons x xs => simp [uniqueFirst, uniqueFirstAux]

theorem filter_orderedInsert_diffDesc (q : ℚ) (a : CompRow) (L : List CompRow) :
    (List.orderedInsert diffDesc a L).filter (fun c => decide (c.diff = q)) =
      if a.diff = q then a :: L.filter (fun c => decide (c.diff = q))
      else L.filter (fun c => decide (c.diff = q)) := by
  induction L with
  | nil => by_cases h : a.diff = q <;> simp [List.orderedInsert, h]
  | cons y ys ih =>
    by_cases hay : diffDesc a y
    · rw [List.orderedInsert, if_pos hay]
      by_cases h : a.diff = q <;> by_cases hy : y.diff = q <;>
        simp [h, hy, List.filter_cons]
    · have hlt : a.diff < y.diff := lt_of_not_le hay
      rw [List.orderedInsert, if_neg hay]
      by_cases h : a.diff = q
      · have hy : ¬ y.diff = q := by
          rw [← h]
          exact fun hh => absurd hh (ne_of_gt hlt)
        simp [List.filter_cons, hy, ih, h]
      · by_cases hy : y.diff = q <;> simp [List.filter_cons, hy, ih, h]

theorem filter_sortDescByDiff (q : ℚ) (l : List CompRow) :
    (sortDescByDiff l).filter (fun c => decide (c.diff = q)) =
      l.filter (fun c => decide (c.diff = q)) := by
  unfold sortDescByDiff
  induction l with
  | nil => rfl
  | cons a l ih =>
    rw [List.insertionSort, filter_orderedInsert_diffDesc]
    by_cases h : a.diff = q <;> simp [h, ih, List.filter_cons]

theorem digitChar_isDigit (n : Nat) : (digitChar n).isDigit = true := by
  unfold digitChar
  split <;> rfl

theorem natCharsAux_digits (fuel : Nat) :
    ∀ (n : Nat), ∀ c ∈ natCharsAux fuel n, c.isDigit = true := by
  induction fuel with
  | zero =>
    intro n c hc
    simp [natCharsAux] at hc
  | succ fuel ih =>
    intro n c hc
    rw [natCharsAux] at hc
    by_cases h : n < 10
    · rw [if_pos h] at hc
      rw [List.mem_singleton.1 hc]
      exact digitChar_isDigit n
    · rw [if_neg h] at hc
      rcases List.mem_append.1 hc with hc | hc
      · exact ih _ c hc
      · rw [List.mem_singleton.1 hc]
        exact digitChar_isDigit n

theorem fmt1_data (q : ℚ) : (fmt1 q).data =
    (if roundHalfEven (q * 10) < 0 then ['-'] else []) ++
      (natChars ((roundHalfEven (q * 10)).natAbs / 10) ++
        ('.' :: natChars ((roundHalfEven (q * 10)).natAbs % 10))) := by
  by_cases hn : roundHalfEven (q * 10) < 0 <;>
    simp [fmt1, hn, natStr, String.data_append]

theorem fmt1_chars (q : ℚ) : ∀ c ∈ (fmt1 q).data, numChar c = true := by
  intro c hc
  rw [fmt1_data] at hc
  rcases List.mem_append.1 hc with hc | hc
  · by_cases hn : roundHalfEven (q * 10) < 0
    · rw [if_pos hn] at hc
      rw [List.mem_singleton.1 hc]
      rfl
    · rw [if_neg hn] at hc
      exact absurd hc (List.not_mem_nil c)
  · rcases List.mem_append.1 hc with hc | hc
    · simp [numChar, natCharsAux_digits _ _ c hc]
    · rcases List.mem_cons.1 hc with rfl | hc
      · rfl
      · simp [numChar, natCharsAux_digits _ _ c hc]

theorem fmt1_data_ne_nil (q : ℚ) : (fmt1 q).data ≠ [] := by
  rw [fmt1_data]
  simp

theorem length_filter_some_le (l : List (Nat × String × Option Bool)) :
    (l.filter fun v => v.2.2 == some true).length ≤
      (l.filter fun v => v.2.2.isSome).length := by
  refine List.Sublist.length_le (List.monotone_filter_right l ?_)
  intro v hv
  rcases hveq : v.2.2 with - | b
  · rw [hveq] at hv
    exact absurd hv (by simp)
  · simp [hveq]

theorem infix_append_split {p xs f ys : List Char} (hp : p ≠ []) (hf : f ≠ [])
    (hdis : ∀ c ∈ p, c ∉ f) (h : p <:+: xs ++ (f ++ ys)) :
    p <:+: xs ∨ p <:+: ys := by
  obtain ⟨a, b, hab⟩ := h
  rw [List.append_assoc] at hab
  rcases List.append_eq_append_iff.1 hab with ⟨m, hxs, hm⟩ | ⟨k, ha, hk⟩
  · rcases List.append_eq_append_iff.1 hm with ⟨t, hmt, hb⟩ | ⟨t, hpt, hfys⟩
    · refine Or.inl ⟨a, t, ?_⟩
      rw [hxs, hmt, List.append_assoc]
    · cases t with
      | nil =>
        refine Or.inl ⟨a, [], ?_⟩
        rw [hxs, hpt]
        simp
      | cons c t' =>
        exfalso
        have hcp : c ∈ p := by
          rw [hpt]
          exact List.mem_append.2 (Or.inr (List.mem_cons_self _ _))
        cases f with
        | nil => exact hf rfl
        | cons cf f' =>
          have h2 : cf :: (f' ++ ys) = c :: (t' ++ b) := by simpa using hfys
          injection h2 with h2a h2b
          refine hdis c hcp ?_
          rw [← h2a]
          exact List.mem_cons_self _ _
  · rcases List.append_eq_append_iff.1 hk with ⟨t, hkt, hys⟩ | ⟨t, hft, hpb⟩
    · refine Or.inr ⟨t, b, ?_⟩
      rw [hys, List.append_assoc]
    · cases t with
      | nil =>
        refine Or.inr ⟨[], b, ?_⟩
        simpa using hpb
      | cons c t' =>
        exfalso
        cases p with
        | nil => exact hp rfl
        | cons cp p' =>
          have h2 : cp :: (p' ++ b) = c :: (t' ++ ys) := by simpa using hpb
          injection h2 with h2a h2b
          have hcf : c ∈ f := by
            rw [hft]
            exact List.mem_append.2 (Or.inr (List.mem_cons_self _ _))
          refine hdis cp (List.mem_cons_self _ _) ?_
          rw [h2a]
          exact hcf

theorem excl_chars : ∀ c ∈ ("excellent" : String).data, numChar c = false := by decide

theorem excl_ne_nil : ("excellent" : String).data ≠ [] := by decide

theorem excl_split {xs ys : List Char} (q : ℚ)
    (h : ("excellent" : String).data <:+: xs ++ ((fmt1 q).data ++ ys)) :
    ("excellent" : String).data <:+: xs ∨ ("excellent" : String).data <:+: ys := by
  refine infix_append_split excl_ne_nil (fmt1_data_ne_nil q) ?_ h
  intro c hc hcf
  have h1 := excl_chars c hc
  have h2 := fmt1_chars q c hcf
  rw [h1] at h2
  exact Bool.false_ne_true h2

theorem noexcl_A1 (sc a d : ℚ) : ¬ ("excellent".data <:+: (wkA1 "Math" "A" sc a d).data) := by
  intro h
  have e : wkA1 "Math" "A" sc a d =
      "Math (Section A): You need significant improvement in mathematical concepts. Your score (" ++ fmt1 sc ++ "%) is " ++ fmt1 |d| ++ "% below the class average (" ++ fmt1 a ++ "%). Focus on basic arithmetic, algebra, and geometry fundamentals." := rfl
  rw [e] at h
  simp only [String.data_append, List.append_assoc] at h
  rcases excl_split sc h with h | h
  · exact absurd h (by decide)
  rcases excl_split |d| h with h | h
  · exact absurd h (by decide)
  rcases excl_split a h with h | h
  · exact absurd h (by decide)
  · exact absurd h (by decide)

theorem noexcl_A2 (sc a d : ℚ) : ¬ ("excellent".data <:+: (wkA2 "Math" "A" sc a d).data) := by
  intro h
  have e : wkA2 "Math" "A" sc a d =
      "Math (Section A): Work on improving your mathematical problem-solving skills. Your score (" ++ fmt1 sc ++ "%) is " ++ fmt1 |d| ++ "% below the class average (" ++ fmt1 a ++ "%). Practice with timed exercises focusing on algebra and number theory." := rfl
  rw [e] at h
  simp only [String.data_append, List.append_assoc] at h
  rcases excl_split sc h with h | h
  · exact absurd h (by decide)
  rcases excl_split |d| h with h | h
  · exact absurd h (by decide)
  rcases excl_split a h with h | h
  · exact absurd h (by decide)
  · exact absurd h (by decide)

theorem noexcl_A3 (a d : ℚ) : ¬ ("excellent".data <:+: (wkA3 "Math" "A" a d).data) := by
  intro h
  have e : wkA3 "Math" "A" a d =
      "Math (Section A): You're doing well in math but still " ++ fmt1 |d| ++ "% below the class average (" ++ fmt1 a ++ "%). Focus on advanced topics and complex problem-solving techniques." := rfl
  rw [e] at h
  simp only [String.data_append, List.append_assoc] at h
  rcases excl_split |d| h with h | h
  · exact absurd h (by decide)
  rcases excl_split a h with h | h
  · exact absurd h (by decide)
  · exact absurd h (by decide)

theorem noexcl_B1 (sc a d : ℚ) : ¬ ("excellent".data <:+: (wkB1 "Verbal" "B" sc a d).data) := by
  intro h
  have e : wkB1 "Verbal" "B" sc a d =
      "Verbal (Section B): Significant improvement needed in verbal reasoning. Your score (" ++ fmt1 sc ++ "%) is " ++ fmt1 |d| ++ "% below the class average (" ++ fmt1 a ++ "%). Focus on vocabulary building, synonyms/antonyms, and basic grammar rules." := rfl
  rw [e] at h
  simp only [String.data_append, List.append_assoc] at h
  rcases excl_split sc h with h | h
  · exact absurd h (by decide)
  rcases excl_split |d| h with h | h
  · exact absurd h (by decide)
  rcases excl_split a h with h | h
  · exact absurd h (by decide)
  · exact absurd h (by decide)

theorem noexcl_B2 (sc a d : ℚ) : ¬ ("excellent".data <:+: (wkB2 "Verbal" "B" sc a d).data) := by
  intro h
  have e : wkB2 "Verbal" "B" sc a d =
      "Verbal (Section B): Work on improving your verbal comprehension. Your score (" ++ fmt1 sc ++ "%) is " ++ fmt1 |d| ++ "% below the class average (" ++ fmt1 a ++ "%). Practice with sentence completion exercises, reading short passages, and word relationships." := rfl
  rw [e] at h
  simp only [String.data_append, List.append_assoc] at h
  rcases excl_split sc h with h | h
  · exact absurd h (by decide)
  rcases excl_split |d| h with h | h
  · exact absurd h (by decide)
  rcases excl_split a h with h | h
  · exact absurd h (by decide)
  · exact absurd h (by decide)

theorem noexcl_B3 (a d : ℚ) : ¬ ("excellent".data <:+: (wkB3 "Verbal" "B" a d).data) := by
  intro h
  have e : wkB3 "Verbal" "B" a d =
      "Verbal (Section B): You're doing reasonably well in verbal skills but " ++ fmt1 |d| ++ "% below the class average (" ++ fmt1 a ++ "%). Focus on complex sentence structures, advanced vocabulary, and nuanced language comprehension." := rfl
  rw [e] at h
  simp only [String.data_append, List.append_assoc] at h
  rcases excl_split |d| h with h | h
  · exact absurd h (by decide)
  rcases excl_split a h with h | h
  · exact absurd h (by decide)
  · exact absurd h (by decide)

theorem noexcl_C1 (sc a d : ℚ) : ¬ ("excellent".data <:+: (wkC1 "Non-verbal" "C" sc a d).data) := by
  intro h
  have e : wkC1 "Non-verbal" "C" sc a d =
      "Non-verbal (Section C): Significant improvement needed in pattern recognition and spatial reasoning. Your score (" ++ fmt1 sc ++ "%) is " ++ fmt1 |d| ++ "% below the class average (" ++ fmt1 a ++ "%). Practice with basic pattern completion exercises and spatial visualization tasks." := rfl
  rw [e] at h
  simp only [String.data_append, List.append_assoc] at h
  rcases excl_split sc h with h | h
  · exact absurd h (by decide)
  rcases excl_split |d| h with h | h
  · exact absurd h (by decide)
  rcases excl_split a h with h | h
  · exact absurd h (by decide)
  · exact absurd h (by decide)

theorem noexcl_C2 (sc a d : ℚ) : ¬ ("excellent".data <:+: (wkC2 "Non-verbal" "C" sc a d).data) := by
  intro h
  have e : wkC2 "Non-verbal" "C" sc a d =
      "Non-verbal (Section C): Work on improving your non-verbal reasoning. Your score (" ++ fmt1 sc ++ "%) is " ++ fmt1 |d| ++ "% below the class average (" ++ fmt1 a ++ "%). Focus on identifying relationships in visual patterns, sequences, and spatial arrangements." := rfl
  rw [e] at h
  simp only [String.data_append, List.append_assoc] at h
  rcases excl_split sc h with h | h
  · exact absurd h (by decide)
  rcases excl_split |d| h with h | h
  · exact absurd h (by decide)
  rcases excl_split a h with h | h
  · exact absurd h (by decide)
  · exact absurd h (by decide)

theorem noexcl_C3 (a d : ℚ) : ¬ ("excellent".data <:+: (wkC3 "Non-verbal" "C" a d).data) := by
  intro h
  have e : wkC3 "Non-verbal" "C" a d =
      "Non-verbal (Section C): You're doing reasonably well in non-verbal reasoning but " ++ fmt1 |d| ++ "% below the class average (" ++ fmt1 a ++ "%). Practice with complex pattern recognition, 3D visualization, and abstract reasoning problems." := rfl
  rw [e] at h
  simp only [String.data_append, List.append_assoc] at h
  rcases excl_split |d| h with h | h
  · exact absurd h (by decide)
  rcases excl_split a h with h | h
  · exact absurd h (by decide)
  · exact absurd h (by decide)

theorem noexcl_D1 (sc a d : ℚ) : ¬ ("excellent".data <:+: (wkD1 "Comprehension" "D" sc a d).data) := by
  intro h
  have e : wkD1 "Comprehension" "D" sc a d =
      "Comprehension (Section D): Significant improvement needed in reading comprehension. Your score (" ++ fmt1 sc ++ "%) is " ++ fmt1 |d| ++ "% below the class average (" ++ fmt1 a ++ "%). Focus on understanding main ideas, basic inference skills, and identifying key information in passages." := rfl
  rw [e] at h
  simp only [String.data_append, List.append_assoc] at h
  rcases excl_split sc h with h | h
  · exact absurd h (by decide)
  rcases excl_split |d| h with h | h
  · exact absurd h (by decide)
  rcases excl_split a h with h | h
  · exact absurd h (by decide)
  · exact absurd h (by decide)

theorem noexcl_D2 (sc a d : ℚ) : ¬ ("excellent".data <:+: (wkD2 "Comprehension" "D" sc a d).data) := by
  intro h
  have e : wkD2 "Comprehension" "D" sc a d =
      "Comprehension (Section D): Work on improving your reading comprehension. Your score (" ++ fmt1 sc ++ "%) is " ++ fmt1 |d| ++ "% below the class average (" ++ fmt1 a ++ "%). Practice with medium-length passages and questions about explicit and implicit information." := rfl
  rw [e] at h
  simp only [String.data_append, List.append_assoc] at h
  rcases excl_split sc h with h | h
  · exact absurd h (by decide)
  rcases excl_split |d| h with h | h
  · exact absurd h (by decide)
  rcases excl_split a h with h | h
  · exact absurd h (by decide)
  · exact absurd h (by decide)

theorem noexcl_D3 (a d : ℚ) : ¬ ("excellent".data <:+: (wkD3 "Comprehension" "D" a d).data) := by
  intro h
  have e : wkD3 "Comprehension" "D" a d =
      "Comprehension (Section D): You're doing reasonably well in comprehension but " ++ fmt1 |d| ++ "% below the class average (" ++ fmt1 a ++ "%). Focus on critical analysis of complex texts, drawing nuanced conclusions, and understanding author's intent and tone." := rfl
  rw [e] at h
  simp only [String.data_append, List.append_assoc] at h
  rcases excl_split |d| h with h | h
  · exact absurd h (by decide)
  rcases excl_split a h with h | h
  · exact absurd h (by decide)
  · exact absurd h (by decide)

theorem weaknessRecFor_eq_table (w : String) (score avg_score diff : ℚ) :
    weaknessRecFor w score avg_score diff =
      weaknessTable w (weaknessTier score) score avg_score diff := by
  unfold weaknessRecFor weaknessTable weaknessTier
  by_cases h40 : score < 40
  · simp [h40]
  · by_cases h60 : score < 60 <;> simp [h40, h60]

theorem noexcl_weaknessRecFor (w : String) (score avg_score diff : ℚ) :
    ∀ s ∈ weaknessRecFor w score avg_score diff,
      ¬ ("excellent".data <:+: s.data) := by
  intro s hs
  unfold weaknessRecFor at hs
  by_cases hA : w == "A"
  · rw [if_pos hA] at hs
    have hw : w = "A" := by exact beq_iff_eq.1 hA
    subst hw
    by_cases h40 : score < 40
    · rw [if_pos h40] at hs
      rw [List.mem_singleton.1 hs]
      exact noexcl_A1 score avg_score diff
    · rw [if_neg h40] at hs
      by_cases h60 : score < 60
      · rw [if_pos h60] at hs
        rw [List.mem_singleton.1 hs]
        exact noexcl_A2 score avg_score diff
      · rw [if_neg h60] at hs
        rw [List.mem_singleton.1 hs]
        exact noexcl_A3 avg_score diff
  · rw [if_neg hA] at hs
    by_cases hB : w == "B"
    · rw [if_pos hB] at hs
      have hw : w = "B" := by exact beq_iff_eq.1 hB
      subst hw
      by_cases h40 : score < 40
      · rw [if_pos h40] at hs
        rw [List.mem_singleton.1 hs]
        exact noexcl_B1 score avg_score diff
      · rw [if_neg h40] at hs
        by_cases h60 : score < 60
        · rw [if_pos h60] at hs
          rw [List.mem_singleton.1 hs]
          exact noexcl_B2 score avg_score diff
        · rw [if_neg h60] at hs
          rw [List.mem_singleton.1 hs]
          exact noexcl_B3 avg_score diff
    · rw [if_neg hB] at hs
      by_cases hC : w == "C"
      · rw [if_pos hC] at hs
        have hw : w = "C" := by exact beq_iff_eq.1 hC
        subst hw
        by_cases h40 : score < 40
        · rw [if_pos h40] at hs
          rw [List.mem_singleton.1 hs]
          exact noexcl_C1 score avg_score diff
        · rw [if_neg h40] at hs
          by_cases h60 : score < 60
          · rw [if_pos h60] at hs
            rw [List.mem_singleton.1 hs]
            exact noexcl_C2 score avg_score diff
          · rw [if_neg h60] at hs
            rw [List.mem_singleton.1 hs]
            exact noexcl_C3 avg_score diff
      · rw [if_neg hC] at hs
        by_cases hD : w == "D"
        · rw [if_pos hD] at hs
          have hw : w = "D" := by exact beq_iff_eq.1 hD
          subst hw
          by_cases h40 : score < 40
          · rw [if_pos h40] at hs
            rw [List.mem_singleton.1 hs]
            exact noexcl_D1 score avg_score diff
          · rw [if_neg h40] at hs
            by_cases h60 : score < 60
            · rw [if_pos h60] at hs
              rw [List.mem_singleton.1 hs]
              exact noexcl_D2 score avg_score diff
            · rw [if_neg h60] at hs
              rw [List.mem_singleton.1 hs]
              exact noexcl_D3 avg_score diff
        · rw [if_neg hD] at hs
          exact absurd hs (List.not_mem_nil s)

theorem performance_level_cases (score : ℚ) :
    performance_level score = "excellent" ∨ performance_level score = "good" ∨
      performance_level score = "fair" ∨ performance_level score = "poor" := by
  unfold performance_level
  split_ifs <;> simp

set_option maxHeartbeats 1000000 in
theorem gssr_ne_nil (s : String) (hs : s = "A" ∨ s = "B" ∨ s = "C" ∨ s = "D")
    (score avg_score diff : ℚ) :
    get_section_specific_recommendations s score avg_score diff ≠ [] := by
  rcases performance_level_cases score with hpl | hpl | hpl | hpl <;>
    rcases hs with h | h | h | h <;> subst h <;>
    simp [get_section_specific_recommendations, hpl]

theorem insertionSort_eq_nil_iff {α : Type} (r : α → α → Prop) [DecidableRel r]
    (l : List α) : List.insertionSort r l = [] ↔ l = [] := by
  constructor
  · intro h
    have hlen := List.length_insertionSort r l
    rw [h] at hlen
    exact List.length_eq_zero.1 hlen.symm
  · rintro rfl
    rfl

/-- Claim C1: for every SectionAggregate table, the cohort average of a
section is the unweighted arithmetic mean of the per-student
`score_percentage` values of the students holding that section; on the
8/10-and-3/5 example the average is 70, not the pooled (11/15)·100. -/
theorem c1_cohort_average_unweighted_mean :
    (∀ (ssp : List SectionRow) (so : List OverallRow) (row : AvgRow),
      row ∈ (calculate_average_performance ssp so).1 →
      row.avg_score_percentage =
        listMean ((ssp.filter fun r => r.sec == row.sec).map fun r => r.score_percentage)) ∧
    (calculate_average_performance exSSP exSO).1 = [⟨"A", 70⟩] ∧
    ((11 : ℚ) / 15) * 100 ≠ 70 := by
  refine ⟨?_, by with_unfolding_all decide, by with_unfolding_all decide⟩
  intro ssp so row hrow
  unfold calculate_average_performance at hrow
  simp only [List.mem_map] at hrow
  obtain ⟨s, hs, rfl⟩ := hrow
  rfl

/-- Witness for C1: the average row of the 8/10-and-3/5 example satisfies
the mean property. -/
theorem c1_witness :
    (AvgRow.mk "A" 70).avg_score_percentage =
      listMean ((exSSP.filter fun r => r.sec == (AvgRow.mk "A" (70 : ℚ)).sec).map
        fun r => r.score_percentage) :=
  c1_cohort_average_unweighted_mean.1 exSSP exSO ⟨"A", 70⟩ (by with_unfolding_all decide)

/-- Claim C2: the recommendation tiers have exactly these boundaries:
`performance_level` is "excellent" iff score ≥ 80, "good" iff 60 ≤ score < 80,
"fair" iff 40 ≤ score < 60, "poor" iff score < 40; `relation_to_avg` is
"above average" iff diff > 5, "below average" iff diff < −5, and
"at the class average" iff −5 ≤ diff ≤ 5 (so diff = 5 is "at the class
average", not "above"). -/
theorem c2_tier_boundaries :
    ∀ score diff : ℚ,
      ((performance_level score = "excellent") ↔ 80 ≤ score) ∧
      ((performance_level score = "good") ↔ 60 ≤ score ∧ score < 80) ∧
      ((performance_level score = "fair") ↔ 40 ≤ score ∧ score < 60) ∧
      ((performance_level score = "poor") ↔ score < 40) ∧
      ((relation_to_avg diff = "above average") ↔ 5 < diff) ∧
      ((relation_to_avg diff = "below average") ↔ diff < -5) ∧
      ((relation_to_avg diff = "at the class average") ↔ -5 ≤ diff ∧ diff ≤ 5) := by
  intro score diff
  unfold performance_level relation_to_avg
  refine ⟨?_, ?_, ?_, ?_, ?_, ?_, ?_⟩ <;> split_ifs with h1 h2 h3 <;>
    simp_all <;> (try constructor) <;> (try intro h4) <;> linarith

/-- Counterexample to claim C4: aggregation applied to the empty record
collection does not fail — it returns empty tables (there is no
`EmptyDatasetError` anywhere in the code, and no exception path). -/
theorem c4_counterexample : calculate_student_metrics [] = ([], [], []) := by
  with_unfolding_all decide

/-- Claim C4 as amended: `calculate_student_metrics` is total and returns
empty section and overall tables exactly when the input is empty; the
pipeline does not short-circuit, it just propagates emptiness. -/
theorem c4_amended_empty_gives_empty :
    ∀ rs : List Record,
      ((calculate_student_metrics rs).1 = [] ↔ rs = []) ∧
      ((calculate_student_metrics rs).2.1 = [] ↔ rs = []) := by
  intro rs
  constructor
  · show (List.insertionSort keyLE (uniqueFirst ((normalizeData rs).map fun v => (v.1, v.2.1)))).map _ = [] ↔ rs = []
    rw [List.map_eq_nil_iff, insertionSort_eq_nil_iff, uniqueFirst_eq_nil_iff,
      List.map_eq_nil_iff]
    unfold normalizeData
    rw [List.map_eq_nil_iff]
  · show (List.insertionSort ascLE (uniqueFirst ((normalizeData rs).map fun v => v.1))).map _ = [] ↔ rs = []
    rw [List.map_eq_nil_iff, insertionSort_eq_nil_iff, uniqueFirst_eq_nil_iff,
      List.map_eq_nil_iff]
    unfold normalizeData
    rw [List.map_eq_nil_iff]

/-- Counterexample to claim C5: a record whose `is_correct` is the string
"maybe" (outside {true, false, "true", "false"}) does not make aggregation
raise `MalformedRecordError` — the pipeline returns aggregate rows built
from the remaining well-formed records (the malformed one is silently
dropped from both counts). -/
theorem c5_counterexample :
    calculate_student_metrics badRecords =
      ([⟨1, "A", 1, 1, 100⟩], [⟨1, 1, 1, 100⟩], [(1, 0)]) := by
  with_unfolding_all decide

/-- Claim C5 as amended: an `is_correct` value outside
{true, false, "true", "false"} is normalized to a missing value rather than
raising, and every aggregate row counts only the group cells whose
normalized value is present (`correct_count` the `some true` cells,
`total_count` the `some _` cells), so a malformed record contributes to
neither count; no error is ever raised. -/
theorem c5_amended_malformed_dropped :
    (∀ (object : Bool) (s : String), s ≠ "true" → s ≠ "false" →
      normalizeVal object (.vs s) = none) ∧
    (∀ (rs : List Record) (row : SectionRow), row ∈ (calculate_student_metrics rs).1 →
      row.correct = (((normalizeData rs).filter fun v =>
          v.1 == row.student_id && v.2.1 == row.sec).filter
          fun v => v.2.2 == some true).length ∧
      row.total = (((normalizeData rs).filter fun v =>
          v.1 == row.student_id && v.2.1 == row.sec).filter
          fun v => v.2.2.isSome).length) := by
  constructor
  · intro object s h1 h2
    cases object with
    | false => rfl
    | true =>
      show mapTrueFalse (.vs s) = none
      unfold mapTrueFalse
      split
      · next heq =>
        injection heq with heq'
        exact absurd heq' h1
      · next heq =>
        injection heq with heq'
        exact absurd heq' h2
      · rfl
  · intro rs row hrow
    unfold calculate_student_metrics at hrow
    simp only [List.mem_map] at hrow
    obtain ⟨k, hk, rfl⟩ := hrow
    exact ⟨rfl, rfl⟩

/-- Claim C9: `evaluate_model` ignores its input content entirely: it
returns accuracy 95.0 and precision 93.0, and exactly one prediction row
per distinct `student_id`, each labeled "Above Average" for predicted and
actual performance with `correct_prediction = true`. -/
theorem c9_evaluate_stub :
    ∀ (rs : List Record) (lr : List (Nat × ℚ)),
      (evaluate_model rs lr).1 = 95 ∧ (evaluate_model rs lr).2.1 = 93 ∧
      ((evaluate_model rs lr).2.2.map fun p => p.student_id) =
        uniqueFirst (rs.map fun r => r.student_id) ∧
      (uniqueFirst (rs.map fun r => r.student_id)).Nodup ∧
      (∀ sid : Nat, sid ∈ uniqueFirst (rs.map fun r => r.student_id) ↔
        sid ∈ rs.map fun r => r.student_id) ∧
      (∀ p ∈ (evaluate_model rs lr).2.2,
        p.predicted_performance = "Above Average" ∧
        p.actual_performance = "Above Average" ∧ p.correct_prediction = true) := by
  intro rs lr
  refine ⟨rfl, rfl, ?_, nodup_uniqueFirst _, fun sid => mem_uniqueFirst _, ?_⟩
  · show ((uniqueFirst (rs.map fun r => r.student_id)).map _).map _ = _
    rw [List.map_map]
    have hcomp : ((fun p : PredRow => p.student_id) ∘
        fun sid => PredRow.mk sid "Above Average" "Above Average" true) = id := rfl
    rw [hcomp, List.map_id]
  · intro p hp
    unfold evaluate_model at hp
    simp only [List.mem_map] at hp
    obtain ⟨sid, -, rfl⟩ := hp
    exact ⟨rfl, rfl, rfl⟩

/-- Witness for C9: the stub's guarantees instantiated on the example
dataset and the prediction row of student 1. -/
theorem c9_witness :
    (evaluate_model exRecords []).1 = 95 ∧
    ((evaluate_model exRecords []).2.2.map fun p => p.student_id) =
      uniqueFirst (exRecords.map fun r => r.student_id) ∧
    (PredRow.mk 1 "Above Average" "Above Average" true).predicted_performance =
      "Above Average" :=
  ⟨(c9_evaluate_stub exRecords []).1,
   (c9_evaluate_stub exRecords []).2.2.1,
   ((c9_evaluate_stub exRecords []).2.2.2.2.2 ⟨1, "Above Average", "Above Average", true⟩
     (by with_unfolding_all decide)).1⟩

/-- Counterexample to claim C7: on a non-empty, data-model-conforming record
set that mixes a genuine boolean with a string (pandas dtype `object`), the
normalization `Series.map {'true':…, 'false':…}` sends the boolean cell to
NaN, and the aggregate row for its (student_id, section) group comes out
with `total_count = 0` (pandas shows sum 0, count 0, score NaN) — violating
`total_count ≥ 1`. -/
theorem c7_counterexample :
    mixedRecords ≠ [] ∧
    (calculate_student_metrics mixedRecords).1 =
      [⟨1, "A", 0, 0, 0⟩, ⟨2, "B", 1, 1, 100⟩] := by
  with_unfolding_all decide

/-- Claim C7 as amended: for every non-empty record set whose `is_correct`
column is homogeneous (all booleans, or all the strings "true"/"false") —
so that pandas' conditional remapping never nulls a cell — every section
aggregate row satisfies `correct_count ≤ total_count`, `total_count ≥ 1`
and `score_percentage = 100·correct_count/total_count` exactly, and there
is exactly one row per (student_id, section) pair present in the input. -/
theorem c7_amended_aggregate_invariants :
    ∀ rs : List Record, rs ≠ [] →
      ((∀ r ∈ rs, ∃ b, r.is_correct = RawVal.vb b) ∨
       (∀ r ∈ rs, r.is_correct = RawVal.vs "true" ∨ r.is_correct = RawVal.vs "false")) →
      (∀ row ∈ (calculate_student_metrics rs).1,
        row.correct ≤ row.total ∧ 1 ≤ row.total ∧
        row.score_percentage = 100 * (row.correct : ℚ) / (row.total : ℚ)) ∧
      ((calculate_student_metrics rs).1.map fun row => (row.student_id, row.sec)).Nodup ∧
      (∀ r ∈ rs, ∃ row ∈ (calculate_student_metrics rs).1,
        row.student_id = r.student_id ∧ row.sec = r.sec) ∧
      (∀ row ∈ (calculate_student_metrics rs).1,
        ∃ r ∈ rs, r.student_id = row.student_id ∧ r.sec = row.sec) := by
  intro rs hne hhom
  have hsome : ∀ v ∈ normalizeData rs, v.2.2.isSome = true := by
    rcases hhom with hb | hs
    · have hobj : isObjectDtype rs = false := by
        unfold isObjectDtype
        rw [List.any_eq_false]
        intro r hr
        obtain ⟨b, hbe⟩ := hb r hr
        rw [hbe]
        exact Bool.false_ne_true
      intro v hv
      unfold normalizeData at hv
      simp only [List.mem_map] at hv
      obtain ⟨r, hr, rfl⟩ := hv
      obtain ⟨b, hbe⟩ := hb r hr
      show (normalizeVal (isObjectDtype rs) r.is_correct).isSome = true
      rw [hobj, hbe]
      rfl
    · have hobj : isObjectDtype rs = true := by
        obtain ⟨r0, hr0⟩ : ∃ r, r ∈ rs := by
          cases rs with
          | nil => exact absurd rfl hne
          | cons a l => exact ⟨a, List.mem_cons_self _ _⟩
        unfold isObjectDtype
        rw [List.any_eq_true]
        refine ⟨r0, hr0, ?_⟩
        rcases hs r0 hr0 with h | h <;> rw [h]
      intro v hv
      unfold normalizeData at hv
      simp only [List.mem_map] at hv
      obtain ⟨r, hr, rfl⟩ := hv
      show (normalizeVal (isObjectDtype rs) r.is_correct).isSome = true
      rcases hs r hr with h | h <;> rw [hobj, h] <;> rfl
  refine ⟨?_, ?_, ?_, ?_⟩
  · intro row hrow
    unfold calculate_student_metrics at hrow
    simp only [List.mem_map] at hrow
    obtain ⟨k, hk, rfl⟩ := hrow
    refine ⟨length_filter_some_le _, ?_, by dsimp only; ring⟩
    have hkmem := (mem_uniqueFirst _).1 ((List.mem_insertionSort keyLE).1 hk)
    simp only [List.mem_map] at hkmem
    obtain ⟨v, hv, hveq⟩ := hkmem
    have hvin : v ∈ ((normalizeData rs).filter fun u => u.1 == k.1 && u.2.1 == k.2).filter
        fun u => u.2.2.isSome := by
      rw [List.mem_filter, List.mem_filter]
      refine ⟨⟨hv, ?_⟩, hsome v hv⟩
      rw [← hveq]
      simp
    exact List.length_pos.2 (List.ne_nil_of_mem hvin)
  · unfold calculate_student_metrics
    rw [List.map_map]
    have hcomp : ((fun row : SectionRow => (row.student_id, row.sec)) ∘
        fun k : Nat × String =>
          SectionRow.mk k.1 k.2
            (((normalizeData rs).filter fun v => v.1 == k.1 && v.2.1 == k.2).filter
              (fun v => v.2.2 == some true)).length
            (((normalizeData rs).filter fun v => v.1 == k.1 && v.2.1 == k.2).filter
              (fun v => v.2.2.isSome)).length
            (((((normalizeData rs).filter fun v => v.1 == k.1 && v.2.1 == k.2).filter
              (fun v => v.2.2 == some true)).length : ℚ) /
              ((((normalizeData rs).filter fun v => v.1 == k.1 && v.2.1 == k.2).filter
              (fun v => v.2.2.isSome)).length : ℚ) * 100)) = id := rfl
    rw [hcomp, List.map_id]
    exact ((List.perm_insertionSort keyLE _).nodup_iff).2 (nodup_uniqueFirst _)
  · intro r hr
    have hkmem : (r.student_id, r.sec) ∈
        List.insertionSort keyLE (uniqueFirst ((normalizeData rs).map fun v => (v.1, v.2.1))) := by
      rw [List.mem_insertionSort keyLE, mem_uniqueFirst]
      refine List.mem_map.2 ⟨(r.student_id, r.sec, normalizeVal (isObjectDtype rs) r.is_correct), ?_, rfl⟩
      unfold normalizeData
      exact List.mem_map.2 ⟨r, hr, rfl⟩
    refine ⟨_, List.mem_map.2 ⟨(r.student_id, r.sec), hkmem, rfl⟩, rfl, rfl⟩
  · intro row hrow
    unfold calculate_student_metrics at hrow
    simp only [List.mem_map] at hrow
    obtain ⟨k, hk, rfl⟩ := hrow
    have hkmem := (mem_uniqueFirst _).1 ((List.mem_insertionSort keyLE).1 hk)
    simp only [List.mem_map] at hkmem
    obtain ⟨v, hv, hveq⟩ := hkmem
    unfold normalizeData at hv
    simp only [List.mem_map] at hv
    obtain ⟨r, hr, rfl⟩ := hv
    refine ⟨r, hr, ?_, ?_⟩
    · show r.student_id = k.1
      rw [← hveq]
    · show r.sec = k.2
      rw [← hveq]

theorem sectionBlock_fst (sd : List SectionRow) (avg : List AvgRow) (s : String) :
    (sectionBlock sd avg s).1 = s := by
  unfold sectionBlock
  split <;> rfl

/-- Witness for C7: the invariants instantiated on the 8/10 row of the
example dataset. -/
theorem c7_witness :
    ((SectionRow.mk 1 "A" 8 10 80).correct ≤ (SectionRow.mk 1 "A" 8 10 80).total ∧
      1 ≤ (SectionRow.mk 1 "A" 8 10 80).total ∧
      (SectionRow.mk 1 "A" 8 10 80).score_percentage =
        100 * ((SectionRow.mk 1 "A" 8 10 80).correct : ℚ) /
          ((SectionRow.mk 1 "A" 8 10 80).total : ℚ)) ∧
    ((calculate_student_metrics exRecords).1.map fun row => (row.student_id, row.sec)).Nodup :=
  ⟨(c7_amended_aggregate_invariants exRecords (by with_unfolding_all decide)
      (Or.inr (by with_unfolding_all decide))).1 ⟨1, "A", 8, 10, 80⟩
      (by with_unfolding_all decide),
   (c7_amended_aggregate_invariants exRecords (by with_unfolding_all decide)
      (Or.inr (by with_unfolding_all decide))).2.1⟩

/-- Claim C8: in all-sections mode the per-student result maps each of the
four section codes (in order A, B, C, D, covering every code present in
the student's data, which conforms to the data model) to its text block:
a non-empty block when the student holds the section, the empty list when
the section is absent from the student's aggregate. -/
theorem c8_all_sections_mapping :
    ∀ (ssp : List SectionRow) (avg : List AvgRow) (sid : Nat)
      (blocks : List (String × List String)),
      (sid, blocks) ∈ generate_recommendations_all ssp avg →
      (∀ r ∈ ssp, r.sec = "A" ∨ r.sec = "B" ∨ r.sec = "C" ∨ r.sec = "D") →
      (blocks.map fun p => p.1) = ["A", "B", "C", "D"] ∧
      ∀ s bs, (s, bs) ∈ blocks →
        ((∃ r ∈ ssp, r.student_id = sid ∧ r.sec = s) → bs ≠ []) ∧
        ((¬ ∃ r ∈ ssp, r.student_id = sid ∧ r.sec = s) → bs = []) := by
  intro ssp avg sid blocks hmem hsec
  unfold generate_recommendations_all at hmem
  simp only [List.mem_map] at hmem
  obtain ⟨sid', hsid', heq⟩ := hmem
  injection heq with h1 h2
  subst h1
  subst h2
  constructor
  · rw [List.map_map]
    simp only [Function.comp_def, sectionBlock_fst]
    rfl
  · intro s bs hsb
    simp only [List.mem_map] at hsb
    obtain ⟨s', hs', heq'⟩ := hsb
    have hfst := sectionBlock_fst (ssp.filter fun r => r.student_id == sid') avg s'
    have hseq : s' = s := by rw [← hfst, heq']
    subst hseq
    have hbs : bs = (sectionBlock (ssp.filter fun r => r.student_id == sid') avg s').2 := by
      rw [heq']
    subst hbs
    have hsmem : s' = "A" ∨ s' = "B" ∨ s' = "C" ∨ s' = "D" := by
      simpa using hs'
    constructor
    · intro hex
      have hne : (ssp.filter fun r => r.student_id == sid').filter
          (fun r => r.sec == s') ≠ [] := by
        obtain ⟨r, hr, hrs, hrsec⟩ := hex
        refine List.ne_nil_of_mem (a := r) ?_
        rw [List.mem_filter, List.mem_filter]
        refine ⟨⟨hr, ?_⟩, ?_⟩
        · simp [hrs]
        · simp [hrsec]
      unfold sectionBlock
      rcases hh : (ssp.filter fun r => r.student_id == sid').filter
          (fun r => r.sec == s') with - | ⟨row, rest⟩
      · exact absurd hh hne
      · rw [hh]
        exact gssr_ne_nil s' hsmem _ _ _
    · intro hnex
      have hnil : (ssp.filter fun r => r.student_id == sid').filter
          (fun r => r.sec == s') = [] := by
        rcases hh : (ssp.filter fun r => r.student_id == sid').filter
            (fun r => r.sec == s') with - | ⟨row, rest⟩
        · exact hh
        · exfalso
          have hrowmem : row ∈ (ssp.filter fun r => r.student_id == sid').filter
              (fun r => r.sec == s') := by
            rw [hh]
            exact List.mem_cons_self _ _
          rw [List.mem_filter, List.mem_filter] at hrowmem
          refine hnex ⟨row, hrowmem.1.1, ?_, ?_⟩
          · have := hrowmem.1.2
            simpa using this
          · have := hrowmem.2
            simpa using this
      unfold sectionBlock
      rw [hnil]

/-- Witness for C8: on `twoSecRecords` (student 1 holds A and B only) the
mapping covers A-D and the block of the held section A is non-empty. -/
theorem c8_witness :
    (twoSecBlocks.map fun p => p.1) = ["A", "B", "C", "D"] ∧
    (twoSecBlocks.headD ("", [])).2 ≠ [] :=
  ⟨(c8_all_sections_mapping twoSecSSP twoSecAvg 1 twoSecBlocks
      (by with_unfolding_all decide) (by with_unfolding_all decide)).1,
   ((c8_all_sections_mapping twoSecSSP twoSecAvg 1 twoSecBlocks
      (by with_unfolding_all decide) (by with_unfolding_all decide)).2
      "A" (twoSecBlocks.headD ("", [])).2 (by with_unfolding_all decide)).1
      (by with_unfolding_all decide)⟩

/-- Claim C3: per student, the classifier sorts the (section, diff)
comparison rows descending by diff with a stable sort — ties keep the
original row order, witnessed by the filter-per-diff-value characterization
— and returns the first two rows as strengths and the last two as
weaknesses; for a 4-section student with pairwise distinct diffs (and
distinct section codes) the two lists each hold exactly 2 sections and are
disjoint. -/
theorem c3_classify_stable_sort :
    ∀ (ssp : List SectionRow) (avg : List AvgRow) (sid : Nat) (e : SWEntry),
      (sid, e) ∈ identify_strengths_weaknesses ssp avg →
      List.Sorted diffDesc (sortDescByDiff (comparisonFor ssp avg sid)) ∧
      (∀ q : ℚ, (sortDescByDiff (comparisonFor ssp avg sid)).filter
          (fun c => decide (c.diff = q)) =
        (comparisonFor ssp avg sid).filter (fun c => decide (c.diff = q))) ∧
      e.strengths = ((sortDescByDiff (comparisonFor ssp avg sid)).take 2).map
        (fun c => c.sec) ∧
      e.weaknesses = ((sortDescByDiff (comparisonFor ssp avg sid)).drop
        ((sortDescByDiff (comparisonFor ssp avg sid)).length - 2)).map (fun c => c.sec) ∧
      ((comparisonFor ssp avg sid).length = 4 →
        ((comparisonFor ssp avg sid).map fun c => c.diff).Nodup →
        ((comparisonFor ssp avg sid).map fun c => c.sec).Nodup →
        e.strengths.length = 2 ∧ e.weaknesses.length = 2 ∧
          ∀ s ∈ e.strengths, s ∉ e.weaknesses) := by
  intro ssp avg sid e hmem
  unfold identify_strengths_weaknesses at hmem
  simp only [List.mem_map] at hmem
  obtain ⟨sid0, hsid0, heq⟩ := hmem
  injection heq with h1 h2
  subst h1
  subst h2
  refine ⟨List.sorted_insertionSort diffDesc _, fun q => filter_sortDescByDiff q _,
    rfl, rfl, ?_⟩
  intro hlen hdiffnd hsecnd
  have hslen : (sortDescByDiff (comparisonFor ssp avg sid0)).length = 4 := by
    unfold sortDescByDiff
    rw [List.length_insertionSort]
    exact hlen
  have hdrop2 : (sortDescByDiff (comparisonFor ssp avg sid0)).drop
      ((sortDescByDiff (comparisonFor ssp avg sid0)).length - 2) =
      (sortDescByDiff (comparisonFor ssp avg sid0)).drop 2 := by
    rw [hslen]
  refine ⟨?_, ?_, ?_⟩
  · simp [List.length_take, hslen]
  · simp [hdrop2, List.length_drop, hslen]
  · have hperm := List.perm_insertionSort diffDesc (comparisonFor ssp avg sid0)
    have hmapnd : ((sortDescByDiff (comparisonFor ssp avg sid0)).map fun c => c.sec).Nodup := by
      refine ((hperm.map fun c : CompRow => c.sec).nodup_iff).2 hsecnd
    have hsplit : ((sortDescByDiff (comparisonFor ssp avg sid0)).map fun c => c.sec) =
        (((sortDescByDiff (comparisonFor ssp avg sid0)).take 2).map fun c => c.sec) ++
        (((sortDescByDiff (comparisonFor ssp avg sid0)).drop 2).map fun c => c.sec) := by
      rw [← List.map_append, List.take_append_drop]
    rw [hsplit] at hmapnd
    have hdisj := (List.nodup_append.1 hmapnd).2.2
    intro s hsmem hwmem
    rw [hdrop2] at hwmem
    exact hdisj hsmem hwmem

/-- Witness for C3: student 1 of `classRecords` has 4 sections with
distinct diffs; the classifier returns exactly 2 disjoint strengths and
weaknesses. -/
theorem c3_witness :
    classE.strengths.length = 2 ∧ classE.weaknesses.length = 2 ∧
      "A" ∉ classE.weaknesses := by
  have h := (c3_classify_stable_sort classSSP classAvg 1 classE
      (by with_unfolding_all decide)).2.2.2.2
      (by with_unfolding_all decide) (by with_unfolding_all decide)
      (by with_unfolding_all decide)
  exact ⟨h.1, h.2.1, h.2.2 "A" (by with_unfolding_all decide)⟩


theorem genWeak_mem {sw : List (Nat × SWEntry)} {ssp : List SectionRow}
    {avg : List AvgRow} {sid : Nat} {recs : List String}
    (h : (sid, recs) ∈ generate_recommendations_weak sw ssp avg) :
    recs = ((swFor sw sid).weaknesses.flatMap fun w =>
      weaknessRecFor w (firstScore (ssp.filter fun r => r.student_id == sid) w)
        (getAvg avg w)
        (firstScore (ssp.filter fun r => r.student_id == sid) w - getAvg avg w)) := by
  unfold generate_recommendations_weak at h
  simp only [List.mem_map] at h
  obtain ⟨sid0, hsid0, heq⟩ := h
  injection heq with h1 h2
  subst h1
  exact h2.symm

/-- Claim C10: in weaknesses-only mode every emitted string embeds the
magnitude of the student-vs-average difference, one-decimal formatted,
followed by the fixed phrase "below the class average" and the formatted
cohort average; the sign of the difference never reaches the wording (the
text is invariant under negating the diff argument), so a weakness whose
score is above the cohort average is still described as that many percent
below the class average. -/
theorem c10_below_average_wording :
    (∀ (w : String) (score avg_score d : ℚ),
      weaknessRecFor w score avg_score d = weaknessRecFor w score avg_score (-d)) ∧
    (∀ (sw : List (Nat × SWEntry)) (ssp : List SectionRow) (avg : List AvgRow)
      (sid : Nat) (recs : List String) (s : String),
      (sid, recs) ∈ generate_recommendations_weak sw ssp avg → s ∈ recs →
      ∃ w pre post, w ∈ (swFor sw sid).weaknesses ∧
        s = pre ++ fmt1 |firstScore (ssp.filter fun r => r.student_id == sid) w -
              getAvg avg w| ++ "% below the class average (" ++
            fmt1 (getAvg avg w) ++ post) := by
  constructor
  · intro w score avg_score d
    simp [weaknessRecFor, wkA1, wkA2, wkA3, wkB1, wkB2, wkB3, wkC1, wkC2, wkC3,
      wkD1, wkD2, wkD3, abs_neg]
  · intro sw ssp avg sid recs s hmem hs
    rw [genWeak_mem hmem] at hs
    simp only [List.mem_flatMap] at hs
    obtain ⟨w, hw, hsw⟩ := hs
    unfold weaknessRecFor at hsw
    dsimp only at hsw
    split at hsw
    · split at hsw
      · rw [List.mem_singleton] at hsw
        exact ⟨w, section_names w ++ " (Section " ++ w ++ "): You need significant improvement in mathematical concepts. Your score (" ++ fmt1 (firstScore (ssp.filter fun r => r.student_id == sid) w) ++ "%) is ",
          "%). Focus on basic arithmetic, algebra, and geometry fundamentals.", hw, by rw [hsw]; rfl⟩
      · split at hsw
        · rw [List.mem_singleton] at hsw
          exact ⟨w, section_names w ++ " (Section " ++ w ++ "): Work on improving your mathematical problem-solving skills. Your score (" ++ fmt1 (firstScore (ssp.filter fun r => r.student_id == sid) w) ++ "%) is ",
            "%). Practice with timed exercises focusing on algebra and number theory.", hw, by rw [hsw]; rfl⟩
        · rw [List.mem_singleton] at hsw
          exact ⟨w, section_names w ++ " (Section " ++ w ++ "): You're doing well in math but still ",
            "%). Focus on advanced topics and complex problem-solving techniques.", hw, by rw [hsw]; rfl⟩
    · split at hsw
      · split at hsw
        · rw [List.mem_singleton] at hsw
          exact ⟨w, section_names w ++ " (Section " ++ w ++ "): Significant improvement needed in verbal reasoning. Your score (" ++ fmt1 (firstScore (ssp.filter fun r => r.student_id == sid) w) ++ "%) is ",
            "%). Focus on vocabulary building, synonyms/antonyms, and basic grammar rules.", hw, by rw [hsw]; rfl⟩
        · split at hsw
          · rw [List.mem_singleton] at hsw
            exact ⟨w, section_names w ++ " (Section " ++ w ++ "): Work on improving your verbal comprehension. Your score (" ++ fmt1 (firstScore (ssp.filter fun r => r.student_id == sid) w) ++ "%) is ",
              "%). Practice with sentence completion exercises, reading short passages, and word relationships.", hw, by rw [hsw]; rfl⟩
          · rw [List.mem_singleton] at hsw
            exact ⟨w, section_names w ++ " (Section " ++ w ++ "): You're doing reasonably well in verbal skills but ",
              "%). Focus on complex sentence structures, advanced vocabulary, and nuanced language comprehension.", hw, by rw [hsw]; rfl⟩
      · split at hsw
        · split at hsw
          · rw [List.mem_singleton] at hsw
            exact ⟨w, section_names w ++ " (Section " ++ w ++ "): Significant improvement needed in pattern recognition and spatial reasoning. Your score (" ++ fmt1 (firstScore (ssp.filter fun r => r.student_id == sid) w) ++ "%) is ",
              "%). Practice with basic pattern completion exercises and spatial visualization tasks.", hw, by rw [hsw]; rfl⟩
          · split at hsw
            · rw [List.mem_singleton] at hsw
              exact ⟨w, section_names w ++ " (Section " ++ w ++ "): Work on improving your non-verbal reasoning. Your score (" ++ fmt1 (firstScore (ssp.filter fun r => r.student_id == sid) w) ++ "%) is ",
                "%). Focus on identifying relationships in visual patterns, sequences, and spatial arrangements.", hw, by rw [hsw]; rfl⟩
            · rw [List.mem_singleton] at hsw
              exact ⟨w, section_names w ++ " (Section " ++ w ++ "): You're doing reasonably well in non-verbal reasoning but ",
                "%). Practice with complex pattern recognition, 3D visualization, and abstract reasoning problems.", hw, by rw [hsw]; rfl⟩
        · split at hsw
          · split at hsw
            · rw [List.mem_singleton] at hsw
              exact ⟨w, section_names w ++ " (Section " ++ w ++ "): Significant improvement needed in reading comprehension. Your score (" ++ fmt1 (firstScore (ssp.filter fun r => r.student_id == sid) w) ++ "%) is ",
                "%). Focus on understanding main ideas, basic inference skills, and identifying key information in passages.", hw, by rw [hsw]; rfl⟩
            · split at hsw
              · rw [List.mem_singleton] at hsw
                exact ⟨w, section_names w ++ " (Section " ++ w ++ "): Work on improving your reading comprehension. Your score (" ++ fmt1 (firstScore (ssp.filter fun r => r.student_id == sid) w) ++ "%) is ",
                  "%). Practice with medium-length passages and questions about explicit and implicit information.", hw, by rw [hsw]; rfl⟩
              · rw [List.mem_singleton] at hsw
                exact ⟨w, section_names w ++ " (Section " ++ w ++ "): You're doing reasonably well in comprehension but ",
                  "%). Focus on critical analysis of complex texts, drawing nuanced conclusions, and understanding author's intent and tone.", hw, by rw [hsw]; rfl⟩
          · exact absurd hsw (List.not_mem_nil s)

/-- Witness for C10: on `aboveRecords` student 1's weakness sections sit 50
points above the cohort average, yet the emitted string still carries the
"below the class average" phrase with the formatted magnitude. -/
theorem c10_witness :
    ∃ w pre post, w ∈ (swFor aboveSW 1).weaknesses ∧
      aboveS = pre ++ fmt1 |firstScore (aboveSSP.filter fun r => r.student_id == 1) w -
            getAvg aboveAvg w| ++ "% below the class average (" ++
          fmt1 (getAvg aboveAvg w) ++ post :=
  c10_below_average_wording.2 aboveSW aboveSSP aboveAvg 1 aboveRecs aboveS
    (by with_unfolding_all decide) (by with_unfolding_all decide)

/-- Counterexample to claim C6: with a single student holding all four
sections, every section score equals the cohort average (diff 0), yet the
weaknesses-only mode still fires — it emits one block per weakness section
(the two lowest-diff sections C and D), whose scores are not below the
cohort average. -/
theorem c6_counterexample :
    ((generate_recommendations_weak oneSW oneSSP oneAvg).map fun p => (p.1, p.2.length)) =
      [(1, 2)] ∧
    (swFor oneSW 1).weaknesses = ["C", "D"] ∧
    firstScore (oneSSP.filter fun r => r.student_id == 1) "C" = 100 ∧
    getAvg oneAvg "C" = 100 := by
  with_unfolding_all decide

/-- Claim C6 as amended: in weaknesses-only mode the per-student output is
exactly the concatenation, over that student's weakness sections (the two
lowest-diff sections, not necessarily below the cohort average), of the
3-tier rule table keyed only on the score thresholds 40 and 60
(`weaknessTier` has no 80/"excellent" tier); and no emitted string ever
contains the word "excellent". -/
theorem c6_amended_three_tier_table :
    ∀ (sw : List (Nat × SWEntry)) (ssp : List SectionRow) (avg : List AvgRow)
      (sid : Nat) (recs : List String),
      (sid, recs) ∈ generate_recommendations_weak sw ssp avg →
      recs = ((swFor sw sid).weaknesses.flatMap fun w =>
        weaknessTable w
          (weaknessTier (firstScore (ssp.filter fun r => r.student_id == sid) w))
          (firstScore (ssp.filter fun r => r.student_id == sid) w)
          (getAvg avg w)
          (firstScore (ssp.filter fun r => r.student_id == sid) w - getAvg avg w)) ∧
      ∀ s ∈ recs, ¬ ("excellent".data <:+: s.data) := by
  intro sw ssp avg sid recs hmem
  have hrecs := genWeak_mem hmem
  constructor
  · rw [hrecs]
    have hfun : (fun w => weaknessRecFor w
        (firstScore (ssp.filter fun r => r.student_id == sid) w) (getAvg avg w)
        (firstScore (ssp.filter fun r => r.student_id == sid) w - getAvg avg w)) =
        (fun w => weaknessTable w
          (weaknessTier (firstScore (ssp.filter fun r => r.student_id == sid) w))
          (firstScore (ssp.filter fun r => r.student_id == sid) w) (getAvg avg w)
          (firstScore (ssp.filter fun r => r.student_id == sid) w - getAvg avg w)) :=
      funext fun w => weaknessRecFor_eq_table w _ _ _
    rw [hfun]
  · intro s hs
    rw [hrecs] at hs
    simp only [List.mem_flatMap] at hs
    obtain ⟨w, hw, hsw⟩ := hs
    exact noexcl_weaknessRecFor w _ _ _ s hsw

/-- Witness for C6 (amended): the one-student dataset's weakness output is
the 3-tier table image of its weakness sections, and none of its strings
contains "excellent". -/
theorem c6_witness :
    oneRecs = ((swFor oneSW 1).weaknesses.flatMap fun w =>
      weaknessTable w
        (weaknessTier (firstScore (oneSSP.filter fun r => r.student_id == 1) w))
        (firstScore (oneSSP.filter fun r => r.student_id == 1) w)
        (getAvg oneAvg w)
        (firstScore (oneSSP.filter fun r => r.student_id == 1) w - getAvg oneAvg w)) ∧
    ∀ s ∈ oneRecs, ¬ ("excellent".data <:+: s.data) :=
  c6_amended_three_tier_table oneSW oneSSP oneAvg 1 oneRecs
    (by with_unfolding_all decide)

/-- Witness for C5 (amended): the "maybe" record of `badRecords` is
normalized to `none` and the surviving aggregate row counts only the
well-formed cell. -/
theorem c5_witness :
    normalizeVal true (.vs "maybe") = none ∧
    (SectionRow.mk 1 "A" 1 1 100).correct =
      (((normalizeData badRecords).filter fun v =>
          v.1 == (SectionRow.mk 1 "A" 1 1 100).student_id &&
          v.2.1 == (SectionRow.mk 1 "A" 1 1 100).sec).filter
          fun v => v.2.2 == some true).length :=
  ⟨c5_amended_malformed_dropped.1 true "maybe" (by decide) (by decide),
   (c5_amended_malformed_dropped.2 badRecords ⟨1, "A", 1, 1, 100⟩
     (by with_unfolding_all decide)).1⟩
